import Mathlib

/-!
Verification of the MAE calculator core (`src/mae_calculator.py`).

The Python module exposes three pure entry points:
  * `calculate_mae(ai_scores, human_scores)` — compare two score
    dictionaries and return an `MAEResult`, or raise `ValueError` when the
    key sets differ;
  * `interpret_mae(mae)` — map an MAE value to a qualitative tier label;
  * `calculate_batch_mae(chats)` — fold `calculate_mae` over a list of
    chat records, returning the average MAE and the per-record results.

Python dictionaries with string keys are embedded as association lists
`List (String × Int)` whose key lists are duplicate-free (the `Nodup`
hypothesis carried by theorems, since a Python dict cannot hold a key
twice).  Python floats are embedded as exact rationals `ℚ`; the raised
`ValueError` becomes the `MAEError.invalidInput` constructor of an
`Except` result.
-/

namespace MAECalc

/-- A ScoreSet: a Python dict mapping KPI name to integer score,
embedded as an association list. -/
abbrev ScoreSet := List (String × Int)

/-- The list of keys of an association list, in insertion order. -/
def keyList {α : Type} (s : List (String × α)) : List String :=
  s.map Prod.fst

/-- Python dict lookup `s[k]`, returning `none` when the key is absent. -/
def lookup? {α : Type} (s : List (String × α)) (k : String) : Option α :=
  (s.find? (fun p => p.1 == k)).map Prod.snd

/-- Total version of dict lookup for score sets.  In `calculate_mae` every
lookup is guarded by the key-set equality check, so the default `0` is
never observed. -/
def lookupScore (s : ScoreSet) (k : String) : Int :=
  (lookup? s k).getD 0

/-- The code's guard `set(ai_scores.keys()) == set(human_scores.keys())`:
mutual inclusion of the two key lists. -/
def sameKeySet (a b : ScoreSet) : Bool :=
  (keyList a).all (fun k => (keyList b).contains k) &&
  (keyList b).all (fun k => (keyList a).contains k)

/-- The spec-level statement that two ScoreSets have identical key sets. -/
def keySetEq (a b : ScoreSet) : Prop :=
  ∀ k, k ∈ keyList a ↔ k ∈ keyList b

/-- Results from MAE calculation (the `MAEResult` dataclass). -/
structure MAEResult where
  mae : ℚ
  total_difference : ℚ
  num_kpis : ℕ
  kpi_differences : List (String × ℚ)
  interpretation : String
deriving DecidableEq

/-- The single error kind of the core: the `ValueError` raised on
mismatched key sets, carrying its message. -/
inductive MAEError where
  | invalidInput : String → MAEError
deriving DecidableEq

/-- `interpret_mae`: tier classification of an MAE value. -/
def interpret_mae (mae : ℚ) : String :=
  if mae < 0.50 then "Excellent (matches human analyst very closely)"
  else if mae < 0.75 then "Good (production-ready)"
  else if mae < 1.00 then "Acceptable (needs minor calibration)"
  else "Poor (needs major fixes)"

/-- `abs(a - b)` on integer scores, cast to the rational used by the
float accumulator. -/
def absDiff (a b : Int) : ℚ :=
  ((|a - b| : Int) : ℚ)

/-- `calculate_mae`: compare two ScoreSets.  Mirrors the Python body:
raise on mismatched key sets, otherwise accumulate per-KPI absolute
differences, divide by the KPI count (guarding the zero case), and
classify the result. -/
def calculate_mae (ai_scores human_scores : ScoreSet) :
    Except MAEError MAEResult :=
  if sameKeySet ai_scores human_scores = false then
    .error (.invalidInput "AI and human scores must have the same KPIs")
  else
    let kpi_differences : List (String × ℚ) :=
      ai_scores.map (fun p => (p.1, absDiff p.2 (lookupScore human_scores p.1)))
    let total_difference : ℚ := (kpi_differences.map Prod.snd).sum
    let num_kpis : ℕ := ai_scores.length
    let mae : ℚ := if num_kpis > 0 then total_difference / (num_kpis : ℚ) else 0
    .ok ⟨mae, total_difference, num_kpis, kpi_differences, interpret_mae mae⟩

/-- A batch record: `chat_id`, `ai_scores`, `human_scores`. -/
structure Chat where
  chat_id : String
  ai_scores : ScoreSet
  human_scores : ScoreSet
deriving DecidableEq

/-- The loop of `calculate_batch_mae`: run `calculate_mae` on each record
in order; a raised error aborts the whole loop (exception propagation). -/
def batchLoop : List Chat → Except MAEError (List MAEResult)
  | [] => .ok []
  | chat :: rest =>
    match calculate_mae chat.ai_scores chat.human_scores with
    | .error e => .error e
    | .ok result =>
      match batchLoop rest with
      | .error e => .error e
      | .ok results => .ok (result :: results)

/-- `calculate_batch_mae`: per-record results plus the average MAE
(`0.0` for an empty batch). -/
def calculate_batch_mae (chats : List Chat) :
    Except MAEError (ℚ × List MAEResult) :=
  match batchLoop chats with
  | .error e => .error e
  | .ok results =>
    let avg_mae : ℚ :=
      if results.length > 0
      then (results.map MAEResult.mae).sum / (results.length : ℚ)
      else 0
    .ok (avg_mae, results)

/-- Rank of a tier label, smaller is better; used to state monotonicity
of `interpret_mae`. -/
def tierRank (s : String) : ℕ :=
  if s = "Excellent (matches human analyst very closely)" then 0
  else if s = "Good (production-ready)" then 1
  else if s = "Acceptable (needs minor calibration)" then 2
  else 3

/-- The reference example AI ScoreSet (ChatID 27811316 in the source). -/
def exampleAI : ScoreSet :=
  [("IssueIdentification", 4), ("ResolutionCompliance", 3), ("Clarity", 2),
   ("Retention", 2), ("Sentiment", 3), ("CustomerCentricity", 4)]

/-- The reference example human ScoreSet (ChatID 27811316 in the source). -/
def exampleHuman : ScoreSet :=
  [("IssueIdentification", 4), ("ResolutionCompliance", 3), ("Clarity", 2),
   ("Retention", 2), ("Sentiment", 4), ("CustomerCentricity", 3)]

/-- The reference example batch record (ChatID 27811316). -/
def exampleChat1 : Chat :=
  ⟨"27811316", exampleAI, exampleHuman⟩

/-- The second reference example batch record (ChatID 27811317). -/
def exampleChat2 : Chat :=
  ⟨"27811317",
   [("IssueIdentification", 3), ("ResolutionCompliance", 2), ("Clarity", 3),
    ("Retention", 3), ("Sentiment", 4), ("CustomerCentricity", 3)],
   [("IssueIdentification", 4), ("ResolutionCompliance", 3), ("Clarity", 2),
    ("Retention", 3), ("Sentiment", 4), ("CustomerCentricity", 4)]⟩

/-- A batch record whose two ScoreSets disagree on keys. -/
def mismatchChatA : Chat :=
  ⟨"27811316", [("Clarity", 1)], [("Sentiment", 1)]⟩

/-- A well-formed batch record. -/
def okChat : Chat :=
  ⟨"27811317", [("Clarity", 1)], [("Clarity", 1)]⟩

/-- A second mismatched batch record, with a different identifier and at a
different position in its batch than `mismatchChatA`. -/
def mismatchChatB : Chat :=
  ⟨"27811318", [("Retention", 2)], [("Sentiment", 5)]⟩

/-- A batch record over a two-dimension vocabulary (sides listed in
different orders). -/
def hetChatA : Chat :=
  ⟨"chat-1", [("Clarity", 2), ("Sentiment", 3)], [("Sentiment", 4), ("Clarity", 2)]⟩

/-- A batch record over a disjoint one-dimension vocabulary. -/
def hetChatB : Chat :=
  ⟨"chat-2", [("Retention", 5)], [("Retention", 1)]⟩

deriving instance DecidableEq for Except

/-! ### Helper lemmas -/

/-- The Boolean guard `sameKeySet` decides the spec-level key-set
equality `keySetEq`. -/
lemma sameKeySet_iff (a b : ScoreSet) :
    sameKeySet a b = true ↔ keySetEq a b := by
  simp only [sameKeySet, keySetEq, Bool.and_eq_true, List.all_eq_true]
  constructor
  · rintro ⟨h1, h2⟩ k
    constructor
    · intro hk
      simpa using h1 k hk
    · intro hk
      simpa using h2 k hk
  · intro h
    constructor
    · intro k hk
      simpa using (h k).mp hk
    · intro k hk
      simpa using (h k).mpr hk

instance (a b : ScoreSet) : Decidable (keySetEq a b) :=
  decidable_of_iff (sameKeySet a b = true) (sameKeySet_iff a b)

/-- In a dict with duplicate-free keys, looking up the key of an entry
returns that entry's value. -/
lemma lookup?_eq_of_mem {α : Type} (s : List (String × α)) (k : String) (v : α)
    (hnd : (keyList s).Nodup) (hm : (k, v) ∈ s) :
    lookup? s k = some v := by
  induction s with
  | nil => simp at hm
  | cons p rest ih =>
    simp only [keyList, List.map_cons, List.nodup_cons] at hnd
    rcases List.mem_cons.mp hm with h | h
    · subst h
      simp [lookup?]
    · have hk : p.1 ≠ k := by
        intro he
        exact hnd.1 (he ▸ (by simpa [keyList] using List.mem_map_of_mem Prod.fst h))
      rw [lookup?, List.find?_cons_of_neg _ (by simp [hk])]
      exact ih hnd.2 h

/-- Mapping a function over the entries of a duplicate-free dict is the
same as mapping over its keys with lookup. -/
lemma map_entries_eq {β : Type} (s : ScoreSet) (hnd : (keyList s).Nodup)
    (g : String → Int → β) :
    s.map (fun p => g p.1 p.2) =
      (keyList s).map (fun k => g k (lookupScore s k)) := by
  rw [keyList, List.map_map]
  apply List.map_congr_left
  intro p hp
  have : lookup? s p.1 = some p.2 :=
    lookup?_eq_of_mem s p.1 p.2 hnd (by simpa using hp)
  simp [Function.comp, lookupScore, this]

/-- On matching key sets, `calculate_mae` succeeds with the accumulated
result. -/
lemma calculate_mae_of_sameKeySet (A B : ScoreSet)
    (h : sameKeySet A B = true) :
    calculate_mae A B =
      .ok ⟨(if A.length > 0
            then ((A.map (fun p => (p.1, absDiff p.2 (lookupScore B p.1)))).map Prod.snd).sum
                   / (A.length : ℚ)
            else 0),
           ((A.map (fun p => (p.1, absDiff p.2 (lookupScore B p.1)))).map Prod.snd).sum,
           A.length,
           A.map (fun p => (p.1, absDiff p.2 (lookupScore B p.1))),
           interpret_mae (if A.length > 0
            then ((A.map (fun p => (p.1, absDiff p.2 (lookupScore B p.1)))).map Prod.snd).sum
                   / (A.length : ℚ)
            else 0)⟩ := by
  simp [calculate_mae, h]

/-! ### Claim theorems -/

/-- Claim C1: for ScoreSets with identical key sets, `calculate_mae`
returns a result whose `total_difference` is the sum over all keys of the
absolute score differences, whose `kpi_differences` maps each key to
exactly that key's absolute difference (and has exactly those keys), and
whose `num_kpis` is the number of keys. -/
theorem c1_calculate_mae_per_dimension (A B : ScoreSet)
    (hA : (keyList A).Nodup) (hkeys : keySetEq A B) :
    ∃ r, calculate_mae A B = .ok r ∧
      r.total_difference =
        ((keyList A).map (fun k => absDiff (lookupScore A k) (lookupScore B k))).sum ∧
      (∀ k ∈ keyList A,
        lookup? r.kpi_differences k =
          some (absDiff (lookupScore A k) (lookupScore B k))) ∧
      keyList r.kpi_differences = keyList A ∧
      r.num_kpis = (keyList A).length := by
  have hsk : sameKeySet A B = true := (sameKeySet_iff A B).mpr hkeys
  rw [calculate_mae_of_sameKeySet A B hsk]
  have hdiffs : A.map (fun p => (p.1, absDiff p.2 (lookupScore B p.1))) =
      (keyList A).map (fun k => (k, absDiff (lookupScore A k) (lookupScore B k))) :=
    map_entries_eq A hA (fun k v => (k, absDiff v (lookupScore B k)))
  refine ⟨_, rfl, ?_, ?_, ?_, ?_⟩
  · simp only [hdiffs, List.map_map]
    rfl
  · intro k hk
    have hmem : (k, absDiff (lookupScore A k) (lookupScore B k)) ∈
        A.map (fun p => (p.1, absDiff p.2 (lookupScore B p.1))) := by
      rw [hdiffs]
      exact List.mem_map_of_mem _ hk
    have hnd : (keyList (A.map (fun p => (p.1, absDiff p.2 (lookupScore B p.1))))).Nodup := by
      simpa [keyList, List.map_map, Function.comp] using hA
    exact lookup?_eq_of_mem _ k _ hnd hmem
  · simp [keyList, List.map_map, Function.comp]
  · exact (List.length_map A Prod.fst).symm

/-- Witness for C1 at the reference example pair of ScoreSets. -/
theorem c1_calculate_mae_per_dimension_witness :
    (keyList exampleAI).Nodup ∧ keySetEq exampleAI exampleHuman ∧
    ∃ r, calculate_mae exampleAI exampleHuman = .ok r ∧
      r.total_difference =
        ((keyList exampleAI).map
          (fun k => absDiff (lookupScore exampleAI k) (lookupScore exampleHuman k))).sum ∧
      (∀ k ∈ keyList exampleAI,
        lookup? r.kpi_differences k =
          some (absDiff (lookupScore exampleAI k) (lookupScore exampleHuman k))) ∧
      keyList r.kpi_differences = keyList exampleAI ∧
      r.num_kpis = (keyList exampleAI).length :=
  ⟨by decide, by decide,
   c1_calculate_mae_per_dimension exampleAI exampleHuman (by decide) (by decide)⟩

/-- Claim C2: for identical key sets, `calculate_mae` succeeds with
`mae = total_difference / num_kpis` when `num_kpis > 0` and `mae = 0`
when `num_kpis = 0`; in particular the empty comparison succeeds with
`mae = 0` and `num_kpis = 0`. -/
theorem c2_calculate_mae_mean (A B : ScoreSet) (hkeys : keySetEq A B) :
    (∃ r, calculate_mae A B = .ok r ∧
      (0 < r.num_kpis → r.mae = r.total_difference / (r.num_kpis : ℚ)) ∧
      (r.num_kpis = 0 → r.mae = 0)) ∧
    ∃ r0, calculate_mae ([] : ScoreSet) ([] : ScoreSet) = .ok r0 ∧
      r0.mae = 0 ∧ r0.num_kpis = 0 := by
  constructor
  · have hsk : sameKeySet A B = true := (sameKeySet_iff A B).mpr hkeys
    rw [calculate_mae_of_sameKeySet A B hsk]
    refine ⟨_, rfl, ?_, ?_⟩
    · intro h
      simp only at h ⊢
      rw [if_pos h]
    · intro h
      simp only at h ⊢
      rw [if_neg (by omega)]
  · exact ⟨⟨0, 0, 0, [], interpret_mae 0⟩, by simp [calculate_mae, sameKeySet, keyList], rfl, rfl⟩

/-- Witness for C2 at the reference example pair of ScoreSets. -/
theorem c2_calculate_mae_mean_witness :
    keySetEq exampleAI exampleHuman ∧
    ((∃ r, calculate_mae exampleAI exampleHuman = .ok r ∧
      (0 < r.num_kpis → r.mae = r.total_difference / (r.num_kpis : ℚ)) ∧
      (r.num_kpis = 0 → r.mae = 0)) ∧
    ∃ r0, calculate_mae ([] : ScoreSet) ([] : ScoreSet) = .ok r0 ∧
      r0.mae = 0 ∧ r0.num_kpis = 0) :=
  ⟨by decide, c2_calculate_mae_mean exampleAI exampleHuman (by decide)⟩

/-- Claim C3: `calculate_mae` fails with the invalid-input error exactly
when the two key sets differ, and every error it ever produces is the
single invalid-input error with the mismatched-dimension message. -/
theorem c3_calculate_mae_error_iff (A B : ScoreSet) :
    ((∃ msg, calculate_mae A B = .error (.invalidInput msg)) ↔ ¬ keySetEq A B) ∧
    ∀ e, calculate_mae A B = .error e →
      e = .invalidInput "AI and human scores must have the same KPIs" := by
  constructor
  · constructor
    · rintro ⟨msg, hmsg⟩ hkeys
      have hsk : sameKeySet A B = true := (sameKeySet_iff A B).mpr hkeys
      rw [calculate_mae_of_sameKeySet A B hsk] at hmsg
      exact absurd hmsg (by simp)
    · intro hkeys
      have hsk : sameKeySet A B = false := by
        cases hh : sameKeySet A B
        · rfl
        · exact absurd ((sameKeySet_iff A B).mp hh) hkeys
      exact ⟨"AI and human scores must have the same KPIs",
        by simp [calculate_mae, hsk]⟩
  · intro e he
    by_cases hsk : sameKeySet A B = false
    · simp only [calculate_mae, hsk, if_pos] at he
      exact (Except.error.inj he).symm
    · rw [calculate_mae_of_sameKeySet A B (by simpa using hsk)] at he
      exact absurd he (by simp)

/-- Witness for C3 at the mismatched pair from the spec's test list. -/
theorem c3_calculate_mae_error_iff_witness :
    ((∃ msg, calculate_mae [("A", 1)] [("B", 1)] = .error (.invalidInput msg)) ↔
      ¬ keySetEq [("A", 1)] [("B", 1)]) ∧
    ∀ e, calculate_mae [("A", 1)] [("B", 1)] = .error e →
      e = .invalidInput "AI and human scores must have the same KPIs" :=
  c3_calculate_mae_error_iff [("A", 1)] [("B", 1)]

/-- Claim C4: `interpret_mae` is the total deterministic tier map with
half-open intervals whose boundaries belong to the lower tier: Excellent
iff mae < 0.50, Good iff 0.50 ≤ mae < 0.75, Acceptable iff
0.75 ≤ mae < 1.00, Poor iff mae ≥ 1.00; the spec's boundary points
evaluate accordingly and any negative mae is Excellent. -/
theorem c4_interpret_mae_tiers (mae : ℚ) :
    (interpret_mae mae = "Excellent (matches human analyst very closely)" ↔ mae < 0.50) ∧
    (interpret_mae mae = "Good (production-ready)" ↔ 0.50 ≤ mae ∧ mae < 0.75) ∧
    (interpret_mae mae = "Acceptable (needs minor calibration)" ↔ 0.75 ≤ mae ∧ mae < 1.00) ∧
    (interpret_mae mae = "Poor (needs major fixes)" ↔ 1.00 ≤ mae) ∧
    interpret_mae 0.49 = "Excellent (matches human analyst very closely)" ∧
    interpret_mae 0.50 = "Good (production-ready)" ∧
    interpret_mae 0.74 = "Good (production-ready)" ∧
    interpret_mae 0.75 = "Acceptable (needs minor calibration)" ∧
    interpret_mae 0.99 = "Acceptable (needs minor calibration)" ∧
    interpret_mae 1.00 = "Poor (needs major fixes)" ∧
    (mae < 0 → interpret_mae mae = "Excellent (matches human analyst very closely)") := by
  refine ⟨?_, ?_, ?_, ?_, ?_, ?_, ?_, ?_, ?_, ?_, ?_⟩
  · simp only [interpret_mae]
    split_ifs with h1 h2 h3 <;> simp_all
  · simp only [interpret_mae]
    split_ifs with h1 h2 h3 <;> simp_all
  · simp only [interpret_mae]
    split_ifs with h1 h2 h3 <;> simp_all
    intro hge
    linarith
  · simp only [interpret_mae]
    split_ifs with h1 h2 h3 <;> simp_all <;> linarith
  · norm_num [interpret_mae]
  · norm_num [interpret_mae]
  · norm_num [interpret_mae]
  · norm_num [interpret_mae]
  · norm_num [interpret_mae]
  · norm_num [interpret_mae]
  · intro h
    have h5 : mae < 0.50 := lt_of_lt_of_le h (by norm_num)
    simp [interpret_mae, h5]

/-- Witness for C4 at the reference example MAE value 1/3. -/
theorem c4_interpret_mae_tiers_witness :
    (interpret_mae (1/3) = "Excellent (matches human analyst very closely)" ↔ (1:ℚ)/3 < 0.50) ∧
    (interpret_mae (1/3) = "Good (production-ready)" ↔ (0.50:ℚ) ≤ 1/3 ∧ (1:ℚ)/3 < 0.75) ∧
    (interpret_mae (1/3) = "Acceptable (needs minor calibration)" ↔
      (0.75:ℚ) ≤ 1/3 ∧ (1:ℚ)/3 < 1.00) ∧
    (interpret_mae (1/3) = "Poor (needs major fixes)" ↔ (1.00:ℚ) ≤ 1/3) ∧
    interpret_mae 0.49 = "Excellent (matches human analyst very closely)" ∧
    interpret_mae 0.50 = "Good (production-ready)" ∧
    interpret_mae 0.74 = "Good (production-ready)" ∧
    interpret_mae 0.75 = "Acceptable (needs minor calibration)" ∧
    interpret_mae 0.99 = "Acceptable (needs minor calibration)" ∧
    interpret_mae 1.00 = "Poor (needs major fixes)" ∧
    ((1:ℚ)/3 < 0 → interpret_mae (1/3) = "Excellent (matches human analyst very closely)") :=
  c4_interpret_mae_tiers (1/3)

/-- Claim C10: `interpret_mae` is monotone: a smaller MAE never receives a
worse tier label, under the rank Excellent < Good < Acceptable < Poor. -/
theorem c10_interpret_mae_monotone (m1 m2 : ℚ) (h : m1 ≤ m2) :
    tierRank (interpret_mae m1) ≤ tierRank (interpret_mae m2) := by
  simp only [interpret_mae]
  split_ifs <;> simp_all [tierRank] <;> linarith

/-- Witness for C10 at the pair 1/3 ≤ 6/5. -/
theorem c10_interpret_mae_monotone_witness :
    (1:ℚ)/3 ≤ 6/5 ∧ tierRank (interpret_mae (1/3)) ≤ tierRank (interpret_mae (6/5)) :=
  ⟨by norm_num, c10_interpret_mae_monotone (1/3) (6/5) (by norm_num)⟩

/-- Claim C7: swapping the two ScoreSets does not change the MAE. -/
theorem c7_calculate_mae_symm (A B : ScoreSet)
    (hA : (keyList A).Nodup) (hB : (keyList B).Nodup) (hkeys : keySetEq A B) :
    ∃ rAB rBA, calculate_mae A B = .ok rAB ∧ calculate_mae B A = .ok rBA ∧
      rAB.mae = rBA.mae := by
  have hskAB : sameKeySet A B = true := (sameKeySet_iff A B).mpr hkeys
  have hkeysBA : keySetEq B A := fun k => (hkeys k).symm
  have hskBA : sameKeySet B A = true := (sameKeySet_iff B A).mpr hkeysBA
  rw [calculate_mae_of_sameKeySet A B hskAB, calculate_mae_of_sameKeySet B A hskBA]
  refine ⟨_, _, rfl, rfl, ?_⟩
  have hperm : List.Perm (keyList A) (keyList B) :=
    (List.perm_ext_iff_of_nodup hA hB).mpr hkeys
  have hlen : A.length = B.length := by
    have h1 := hperm.length_eq
    simpa [keyList] using h1
  have e1 := map_entries_eq A hA (fun k v => (k, absDiff v (lookupScore B k)))
  have e2 := map_entries_eq B hB (fun k v => (k, absDiff v (lookupScore A k)))
  have htot :
      ((A.map (fun p => (p.1, absDiff p.2 (lookupScore B p.1)))).map Prod.snd).sum =
      ((B.map (fun p => (p.1, absDiff p.2 (lookupScore A p.1)))).map Prod.snd).sum := by
    rw [e1, e2, List.map_map, List.map_map]
    have hcomm : (keyList B).map
          ((fun p => p.2) ∘ fun k => (k, absDiff (lookupScore B k) (lookupScore A k))) =
        (keyList B).map (fun k => absDiff (lookupScore A k) (lookupScore B k)) := by
      apply List.map_congr_left
      intro k _
      simp [absDiff, abs_sub_comm]
    rw [hcomm]
    have hmp := (hperm.map (fun k => absDiff (lookupScore A k) (lookupScore B k))).sum_eq
    simpa [Function.comp] using hmp
  dsimp only
  rw [htot, hlen]

/-- Witness for C7 at the reference example pair of ScoreSets. -/
theorem c7_calculate_mae_symm_witness :
    (keyList exampleAI).Nodup ∧ (keyList exampleHuman).Nodup ∧
    keySetEq exampleAI exampleHuman ∧
    ∃ rAB rBA, calculate_mae exampleAI exampleHuman = .ok rAB ∧
      calculate_mae exampleHuman exampleAI = .ok rBA ∧ rAB.mae = rBA.mae :=
  ⟨by decide, by decide, by decide,
   c7_calculate_mae_symm exampleAI exampleHuman (by decide) (by decide) (by decide)⟩

/-- Claim C8: comparing a ScoreSet with itself yields MAE 0 and the
Excellent interpretation. -/
theorem c8_calculate_mae_self (A : ScoreSet) (hA : (keyList A).Nodup) :
    ∃ r, calculate_mae A A = .ok r ∧ r.mae = 0 ∧
      r.interpretation = "Excellent (matches human analyst very closely)" := by
  have hsk : sameKeySet A A = true := (sameKeySet_iff A A).mpr (fun k => Iff.rfl)
  rw [calculate_mae_of_sameKeySet A A hsk]
  have hzero : ∀ p ∈ A, absDiff p.2 (lookupScore A p.1) = 0 := by
    intro p hp
    have hl : lookup? A p.1 = some p.2 :=
      lookup?_eq_of_mem A p.1 p.2 hA (by simpa using hp)
    simp [absDiff, lookupScore, hl]
  have htot :
      ((A.map (fun p => (p.1, absDiff p.2 (lookupScore A p.1)))).map Prod.snd).sum = 0 := by
    apply List.sum_eq_zero
    intro x hx
    simp only [List.map_map, List.mem_map, Function.comp] at hx
    obtain ⟨p, hp, hpe⟩ := hx
    rw [← hpe]
    exact hzero p hp
  refine ⟨_, rfl, ?_, ?_⟩
  · dsimp only
    rw [htot]
    split <;> simp
  · dsimp only
    rw [htot]
    have hmae : (if A.length > 0 then (0 : ℚ) / (A.length : ℚ) else 0) = 0 := by
      split <;> simp
    rw [hmae]
    norm_num [interpret_mae]

/-- Witness for C8 at the reference example AI ScoreSet. -/
theorem c8_calculate_mae_self_witness :
    (keyList exampleAI).Nodup ∧
    ∃ r, calculate_mae exampleAI exampleAI = .ok r ∧ r.mae = 0 ∧
      r.interpretation = "Excellent (matches human analyst very closely)" :=
  ⟨by decide, c8_calculate_mae_self exampleAI (by decide)⟩

/-- When every record passes the key-set guard, the batch loop returns
one result per record, in input order, each produced by
`calculate_mae`. -/
lemma batchLoop_ok (chats : List Chat)
    (h : ∀ c ∈ chats, sameKeySet c.ai_scores c.human_scores = true) :
    ∃ results, batchLoop chats = .ok results ∧
      chats.map (fun c => calculate_mae c.ai_scores c.human_scores) =
        results.map Except.ok := by
  induction chats with
  | nil => exact ⟨[], rfl, rfl⟩
  | cons c rest ih =>
    obtain ⟨r, hr⟩ : ∃ r, calculate_mae c.ai_scores c.human_scores = .ok r := by
      rw [calculate_mae_of_sameKeySet _ _ (h c (by simp))]
      exact ⟨_, rfl⟩
    obtain ⟨rs, hrs, hmap⟩ := ih (fun d hd => h d (by simp [hd]))
    refine ⟨r :: rs, ?_, ?_⟩
    · simp [batchLoop, hr, hrs]
    · simp [hr, hmap]

/-- When some record fails the key-set guard, the batch loop propagates
the single invalid-input error. -/
lemma batchLoop_error (chats : List Chat)
    (h : ∃ c ∈ chats, sameKeySet c.ai_scores c.human_scores = false) :
    batchLoop chats =
      .error (.invalidInput "AI and human scores must have the same KPIs") := by
  induction chats with
  | nil => simp at h
  | cons c rest ih =>
    by_cases hc : sameKeySet c.ai_scores c.human_scores = false
    · simp [batchLoop, calculate_mae, hc]
    · have hcs : sameKeySet c.ai_scores c.human_scores = true := by
        simpa using hc
      obtain ⟨d, hd, hdf⟩ := h
      rcases List.mem_cons.mp hd with rfl | hd2
      · exact absurd hdf (by simp [hcs])
      · obtain ⟨r, hr⟩ : ∃ r, calculate_mae c.ai_scores c.human_scores = .ok r := by
          rw [calculate_mae_of_sameKeySet _ _ hcs]
          exact ⟨_, rfl⟩
        simp [batchLoop, hr, ih ⟨d, hd2, hdf⟩]

/-- Claim C5: when every record's pair of ScoreSets has identical key
sets, `calculate_batch_mae` succeeds, returns exactly the per-record
`calculate_mae` results in input order, and the average is the arithmetic
mean of the per-record MAE values (0 for an empty batch). -/
theorem c5_calculate_batch_mae_success (chats : List Chat)
    (h : ∀ c ∈ chats, keySetEq c.ai_scores c.human_scores) :
    ∃ results, calculate_batch_mae chats =
        .ok (if results.length > 0
             then (results.map MAEResult.mae).sum / (results.length : ℚ)
             else 0, results) ∧
      chats.map (fun c => calculate_mae c.ai_scores c.human_scores) =
        results.map Except.ok := by
  obtain ⟨results, hres, hmap⟩ :=
    batchLoop_ok chats (fun c hc => (sameKeySet_iff _ _).mpr (h c hc))
  refine ⟨results, ?_, hmap⟩
  unfold calculate_batch_mae
  rw [hres]

/-- Witness for C5 at the two-record reference example batch. -/
theorem c5_calculate_batch_mae_success_witness :
    (∀ c ∈ [exampleChat1, exampleChat2], keySetEq c.ai_scores c.human_scores) ∧
    ∃ results, calculate_batch_mae [exampleChat1, exampleChat2] =
        .ok (if results.length > 0
             then (results.map MAEResult.mae).sum / (results.length : ℚ)
             else 0, results) ∧
      [exampleChat1, exampleChat2].map
          (fun c => calculate_mae c.ai_scores c.human_scores) =
        results.map Except.ok :=
  ⟨by decide,
   c5_calculate_batch_mae_success [exampleChat1, exampleChat2] (by decide)⟩

/-- Claim C6 (amended): a batch containing any record that fails the
key-set precondition fails as a whole with the single generic
invalid-input error, so no partial result is returned. -/
theorem c6_calculate_batch_mae_failfast (chats : List Chat)
    (h : ∃ c ∈ chats, ¬ keySetEq c.ai_scores c.human_scores) :
    calculate_batch_mae chats =
      .error (.invalidInput "AI and human scores must have the same KPIs") := by
  obtain ⟨c, hc, hck⟩ := h
  have hf : sameKeySet c.ai_scores c.human_scores = false := by
    cases hh : sameKeySet c.ai_scores c.human_scores
    · rfl
    · exact absurd ((sameKeySet_iff _ _).mp hh) hck
  unfold calculate_batch_mae
  rw [batchLoop_error chats ⟨c, hc, hf⟩]

/-- Witness for the amended C6 at a concrete failing batch. -/
theorem c6_calculate_batch_mae_failfast_witness :
    (∃ c ∈ [okChat, mismatchChatB], ¬ keySetEq c.ai_scores c.human_scores) ∧
    calculate_batch_mae [okChat, mismatchChatB] =
      .error (.invalidInput "AI and human scores must have the same KPIs") :=
  ⟨by decide, c6_calculate_batch_mae_failfast [okChat, mismatchChatB] (by decide)⟩

/-- Counterexample to C6 as stated: the error value never carries the
failing record's identifier or index.  Two batches whose earliest
failing records have different identifiers (`mismatchChatA` at index 0
versus `mismatchChatB` at index 1) produce identical error values, so
the error cannot tell the caller which record was malformed. -/
theorem c6_batch_error_carries_no_context :
    calculate_batch_mae [mismatchChatA] =
      .error (.invalidInput "AI and human scores must have the same KPIs") ∧
    calculate_batch_mae [okChat, mismatchChatB] =
      .error (.invalidInput "AI and human scores must have the same KPIs") ∧
    mismatchChatA.chat_id ≠ mismatchChatB.chat_id ∧
    calculate_batch_mae [mismatchChatA] =
      calculate_batch_mae [okChat, mismatchChatB] := by
  refine ⟨?_, ?_, by decide, ?_⟩ <;>
    simp +decide [calculate_batch_mae, batchLoop, calculate_mae, sameKeySet, keyList,
      mismatchChatA, mismatchChatB, okChat]

/-- Claim C9: the key-set guard is applied record by record, never across
records: any batch whose records each internally agree on keys succeeds,
even with disjoint or differently sized vocabularies across records. -/
theorem c9_calculate_batch_mae_no_cross_record_check (chats : List Chat)
    (h : ∀ c ∈ chats, keySetEq c.ai_scores c.human_scores) :
    ∃ avg results, calculate_batch_mae chats = .ok (avg, results) := by
  obtain ⟨results, hres, _⟩ :=
    batchLoop_ok chats (fun c hc => (sameKeySet_iff _ _).mpr (h c hc))
  refine ⟨if results.length > 0
          then (results.map MAEResult.mae).sum / (results.length : ℚ)
          else 0, results, ?_⟩
  unfold calculate_batch_mae
  rw [hres]

/-- Witness for C9 at a batch whose two records use disjoint
vocabularies of different sizes. -/
theorem c9_calculate_batch_mae_no_cross_record_check_witness :
    (∀ c ∈ [hetChatA, hetChatB], keySetEq c.ai_scores c.human_scores) ∧
    ∃ avg results, calculate_batch_mae [hetChatA, hetChatB] = .ok (avg, results) :=
  ⟨by decide,
   c9_calculate_batch_mae_no_cross_record_check [hetChatA, hetChatB] (by decide)⟩

end MAECalc
